import Mathlib

/-!
Shallow embedding of the agile-metrics-action metrics computation engine.

Conventions used throughout:
* Timestamps (JS `Date` values / ISO strings) are milliseconds since the epoch,
  modelled as `Int`; JS number arithmetic over them is modelled with `ℚ`.
* Collaborator calls that can return `null` are modelled with `Option`.
* A thrown error caught and turned into an `{ error }` object is modelled with
  `Except String`.
-/

/-- Models `Math.round x` on rationals: JS rounds half toward `+∞`, exactly
`round` on `ℚ` (`round x = ⌊x + 1/2⌋`). -/
def jsRound (x : ℚ) : Int := round x

/-- Models `Number(x.toFixed(2))` and `Math.round(x * 100) / 100`. -/
def round2 (x : ℚ) : ℚ := ((jsRound (x * 100) : Int) : ℚ) / 100

/-- Models `Math.round(x * 1000) / 1000`. -/
def round3 (x : ℚ) : ℚ := ((jsRound (x * 1000) : Int) : ℚ) / 1000

/-! ## PR maturity calculator (TestDevExMatricsCollector, debug-maturity.test.js)

Data model for the DevEx PR-maturity calculation. -/

/-- Options of `TestDevExMatricsCollector` (constructor defaults:
`filesToIgnore: []`, `ignoreLineDeletions: false`, `ignoreFileDeletions: false`). -/
structure DevExOptions where
  filesToIgnore : List String
  ignoreLineDeletions : Bool
  ignoreFileDeletions : Bool

def defaultDevExOptions : DevExOptions :=
  { filesToIgnore := [], ignoreLineDeletions := false, ignoreFileDeletions := false }

/-- An entry of `getPullRequestFiles`. -/
structure PRFile where
  filename : String
  additions : Nat
  deletions : Nat
  status : String

/-- An entry of `getPullRequestCommits`: `sha` and `commit.author.date`
(milliseconds since the epoch). -/
structure PRCommit where
  sha : String
  author_date : Int

/-- The part of `getPullRequest` the calculator reads. -/
structure PRDetails where
  created_at : Int

/-- A file entry of a `compareCommitsDiff` result. -/
structure DiffFile where
  additions : Nat
  deletions : Nat

/-- A `compareCommitsDiff` result; `files` may be absent (`diff.files || []`). -/
structure CommitDiff where
  files : Option (List DiffFile)

/-- The glob-as-regex matcher built by `filterFiles`:
`pattern.replace(/\x2a/g, '.*').replace(/\?/g, '.')` wrapped in `^...$`.
`*` matches any sequence; `?` matches one character; a literal `.` in the
pattern stays an (unescaped) regex dot, hence also matches any one character. -/
def globMatch : List Char → List Char → Bool
  | [], [] => true
  | [], _ :: _ => false
  | '*' :: ps, [] => globMatch ps []
  | '*' :: ps, c :: s => globMatch ps (c :: s) || globMatch ('*' :: ps) s
  | '?' :: _, [] => false
  | '?' :: ps, _ :: s => globMatch ps s
  | '.' :: _, [] => false
  | '.' :: ps, _ :: s => globMatch ps s
  | _ :: _, [] => false
  | p :: ps, c :: s => p == c && globMatch ps s
  termination_by ps s => (ps.length, s.length)

/-- `new RegExp('^' + regexPattern + '$').test(file.filename)`. -/
def matchesIgnorePattern (pattern filename : String) : Bool :=
  globMatch pattern.toList filename.toList

/-- `TestDevExMatricsCollector.filterFiles`. -/
def filterFiles (opts : DevExOptions) (files : List PRFile) : List PRFile :=
  files.filter fun file =>
    if opts.ignoreFileDeletions && file.status == "removed" then
      false
    else if 0 < opts.filesToIgnore.length &&
        opts.filesToIgnore.any (fun pat => matchesIgnorePattern pat file.filename) then
      false
    else
      true

/-- Result of `calculateSizeDetails`. -/
structure SizeDetails where
  total_additions : Nat
  total_deletions : Nat
  total_changes : Nat

/-- `TestDevExMatricsCollector.calculateSizeDetails`: sums additions, and
deletions unless `ignoreLineDeletions`. -/
def calculateSizeDetails (opts : DevExOptions) (files : List PRFile) : SizeDetails :=
  let total_additions := (files.map PRFile.additions).foldl (· + ·) 0
  let total_deletions :=
    if opts.ignoreLineDeletions then 0
    else (files.map PRFile.deletions).foldl (· + ·) 0
  { total_additions := total_additions
    total_deletions := total_deletions
    total_changes := total_additions + total_deletions }

/-- `TestDevExMatricsCollector.calculateDiffSize`: sums additions + deletions
with no filtering. -/
def calculateDiffSize (files : List DiffFile) : Nat :=
  (files.map (fun f => f.additions + f.deletions)).foldl (· + ·) 0

/-- The `details` object of a successful maturity result. Fields only present
in some branches are `Option`s. -/
structure MaturityDetails where
  total_commits : Nat
  commits_after_publication : Option Nat
  total_changes : Nat
  changes_after_publication : Nat
  stable_changes : Int
  first_commit_sha : String
  last_commit_sha : String
  baseline_commit_sha : Option String
  first_significant_commit_sha : Option String
  pr_created_at : Int
  reason : String

/-- Result of `calculatePRMaturity`; `details` is either an `{ error }` object
or the detail record. -/
structure MaturityResult where
  maturity_ratio : Option ℚ
  maturity_percentage : Option Int
  details : Except String MaturityDetails

/-- The error-shaped result `{ maturity_ratio: null, maturity_percentage: null,
details: { error } }`. -/
def errResult (msg : String) : MaturityResult :=
  { maturity_ratio := none, maturity_percentage := none, details := .error msg }

/-- The grace-period test on one commit:
`Math.abs(commitDate - prCreatedAt) / (1000 * 60) <= 5 || commitDate <= prCreatedAt`. -/
def withinGrace (prCreatedAt : Int) (c : PRCommit) : Bool :=
  decide (|((c.author_date - prCreatedAt : Int) : ℚ)| / (1000 * 60) ≤ 5) ||
    decide (c.author_date ≤ prCreatedAt)

/-- The significance test on one commit:
`(commitDate - prCreatedAt) / (1000 * 60) > 5` (signed, no absolute value). -/
def isSignificant (prCreatedAt : Int) (c : PRCommit) : Bool :=
  decide ((5 : ℚ) < ((c.author_date - prCreatedAt : Int) : ℚ) / (1000 * 60))

/-- `TestDevExMatricsCollector.calculatePRMaturity`, with the already-fetched
collaborator snapshots passed in (`prDetails`/`prCommits`/`prFiles` are the
awaited collaborator results, `compareCommitsDiff` the diff collaborator). -/
def calculatePRMaturity (opts : DevExOptions) (prDetails : Option PRDetails)
    (prCommits : Option (List PRCommit)) (prFiles : Option (List PRFile))
    (compareCommitsDiff : String → String → Option CommitDiff) : MaturityResult :=
  match prDetails with
  | none => errResult "Could not fetch PR details"
  | some pr =>
    match prCommits with
    | none => errResult "No commits found in PR"
    | some [] => errResult "No commits found in PR"
    | some (c0 :: crest) =>
      let commits := c0 :: crest
      if commits.length = 1 then
        -- Single commit case (the logged `timeDiffMinutes` does not affect the result)
        let sizeDetails := calculateSizeDetails opts (filterFiles opts (prFiles.getD []))
        { maturity_ratio := some 1
          maturity_percentage := some 100
          details := .ok
            { total_commits := 1
              commits_after_publication := none
              total_changes := sizeDetails.total_changes
              changes_after_publication := 0
              stable_changes := (sizeDetails.total_changes : Int)
              first_commit_sha := c0.sha
              last_commit_sha := c0.sha
              baseline_commit_sha := none
              first_significant_commit_sha := none
              pr_created_at := pr.created_at
              reason := "Single commit PR" } }
      else
        let commitsWithinGracePeriod := commits.filter (withinGrace pr.created_at)
        if commitsWithinGracePeriod.length = commits.length then
          let sizeDetails := calculateSizeDetails opts (filterFiles opts (prFiles.getD []))
          { maturity_ratio := some 1
            maturity_percentage := some 100
            details := .ok
              { total_commits := commits.length
                commits_after_publication := none
                total_changes := sizeDetails.total_changes
                changes_after_publication := 0
                stable_changes := (sizeDetails.total_changes : Int)
                first_commit_sha := c0.sha
                last_commit_sha := (commits.getLast (List.cons_ne_nil c0 crest)).sha
                baseline_commit_sha := none
                first_significant_commit_sha := none
                pr_created_at := pr.created_at
                reason := "All commits within grace period or pre-existing" } }
        else
          let significantCommitsAfterPR := commits.filter (isSignificant pr.created_at)
          match significantCommitsAfterPR with
          | [] =>
            let sizeDetails := calculateSizeDetails opts (filterFiles opts (prFiles.getD []))
            { maturity_ratio := some 1
              maturity_percentage := some 100
              details := .ok
                { total_commits := commits.length
                  commits_after_publication := none
                  total_changes := sizeDetails.total_changes
                  changes_after_publication := 0
                  stable_changes := (sizeDetails.total_changes : Int)
                  first_commit_sha := c0.sha
                  last_commit_sha := (commits.getLast (List.cons_ne_nil c0 crest)).sha
                  baseline_commit_sha := none
                  first_significant_commit_sha := none
                  pr_created_at := pr.created_at
                  reason := "No significant commits after PR publication" } }
          | firstSignificantCommit :: _ =>
            let lastCommit := commits.getLast (List.cons_ne_nil c0 crest)
            let firstSignificantIndex :=
              commits.findIdx (fun c => c.sha == firstSignificantCommit.sha)
            -- `prCommits[firstSignificantIndex - 1]`; the index is in bounds
            -- whenever `0 < firstSignificantIndex`, so the `getD` default is
            -- never used.
            let baselineCommit :=
              if 0 < firstSignificantIndex then commits.getD (firstSignificantIndex - 1) c0
              else c0
            let totalPRChanges := calculateSizeDetails opts (filterFiles opts (prFiles.getD []))
            match compareCommitsDiff baselineCommit.sha lastCommit.sha with
            | none => errResult "Could not compare commits for maturity analysis"
            | some diff =>
              let changesAfterPublication := calculateDiffSize (diff.files.getD [])
              let stableChanges : Int :=
                max 0 ((totalPRChanges.total_changes : Int) - (changesAfterPublication : Int))
              let maturityRatio : ℚ :=
                if 0 < totalPRChanges.total_changes then
                  (stableChanges : ℚ) / (totalPRChanges.total_changes : ℚ)
                else 1
              { maturity_ratio := some (round3 maturityRatio)
                maturity_percentage := some (jsRound (maturityRatio * 100))
                details := .ok
                  { total_commits := commits.length
                    commits_after_publication := some significantCommitsAfterPR.length
                    total_changes := totalPRChanges.total_changes
                    changes_after_publication := changesAfterPublication
                    stable_changes := stableChanges
                    first_commit_sha := c0.sha
                    last_commit_sha := lastCommit.sha
                    baseline_commit_sha := some baselineCommit.sha
                    first_significant_commit_sha := some firstSignificantCommit.sha
                    pr_created_at := pr.created_at
                    reason := "Calculated based on meaningful commits after publication" } }

/-- C3: a single-commit PR is always 100% mature with reason "Single commit PR",
for any options, file list, and diff collaborator. -/
theorem single_commit_full_maturity (opts : DevExOptions) (pr : PRDetails) (c : PRCommit)
    (prFiles : Option (List PRFile)) (cmp : String → String → Option CommitDiff) :
    (calculatePRMaturity opts (some pr) (some [c]) prFiles cmp).maturity_percentage = some 100 ∧
    (calculatePRMaturity opts (some pr) (some [c]) prFiles cmp).maturity_ratio = some 1 ∧
    ∃ d, (calculatePRMaturity opts (some pr) (some [c]) prFiles cmp).details = .ok d ∧
      d.reason = "Single commit PR" := by
  exact ⟨rfl, rfl, _, rfl, rfl⟩

/-- C2: if a PR has two or more commits and every commit's author date is
within 5 minutes (absolute) of PR creation or precedes PR creation, the result
is 100% maturity with zero changes after publication, stable changes equal to
total changes, and reason "All commits within grace period or pre-existing". -/
theorem all_within_grace_full_maturity (opts : DevExOptions) (pr : PRDetails)
    (c0 c1 : PRCommit) (crest : List PRCommit)
    (prFiles : Option (List PRFile)) (cmp : String → String → Option CommitDiff)
    (h : ∀ c ∈ c0 :: c1 :: crest,
      |((c.author_date - pr.created_at : Int) : ℚ)| / (1000 * 60) ≤ 5 ∨
        c.author_date ≤ pr.created_at) :
    (calculatePRMaturity opts (some pr) (some (c0 :: c1 :: crest)) prFiles cmp).maturity_ratio
        = some 1 ∧
    (calculatePRMaturity opts (some pr) (some (c0 :: c1 :: crest)) prFiles cmp).maturity_percentage
        = some 100 ∧
    ∃ d, (calculatePRMaturity opts (some pr) (some (c0 :: c1 :: crest)) prFiles cmp).details
        = .ok d ∧
      d.changes_after_publication = 0 ∧
      d.stable_changes = (d.total_changes : Int) ∧
      d.reason = "All commits within grace period or pre-existing" := by
  have hg : (c0 :: c1 :: crest).filter (withinGrace pr.created_at) = c0 :: c1 :: crest := by
    rw [List.filter_eq_self]
    intro a ha
    simpa [withinGrace] using h a ha
  simp only [calculatePRMaturity]
  rw [if_neg (by simp)]
  rw [hg, if_pos rfl]
  exact ⟨rfl, rfl, _, rfl, rfl, rfl, rfl⟩

/-- Witness for `all_within_grace_full_maturity`: scenario B of the spec, PR
created at 2024-01-01T10:00:00Z with commits at 09:58 and 10:02 (epoch ms). -/
theorem all_within_grace_full_maturity_witness :
    (calculatePRMaturity defaultDevExOptions (some ⟨1704103200000⟩)
        (some [⟨"commit1-sha", 1704103080000⟩, ⟨"commit2-sha", 1704103320000⟩])
        (some [⟨"src/main.js", 100, 50, "modified"⟩, ⟨"test/main.test.js", 30, 0, "modified"⟩])
        (fun _ _ => none)).maturity_percentage = some 100 :=
  (all_within_grace_full_maturity defaultDevExOptions ⟨1704103200000⟩
    ⟨"commit1-sha", 1704103080000⟩ ⟨"commit2-sha", 1704103320000⟩ []
    (some [⟨"src/main.js", 100, 50, "modified"⟩, ⟨"test/main.test.js", 30, 0, "modified"⟩])
    (fun _ _ => none) (by
      intro c hc
      simp only [List.mem_cons, List.not_mem_nil, or_false] at hc
      rcases hc with rfl | rfl
      · exact Or.inr (by norm_num)
      · refine Or.inl ?_
        have h120 : ((1704103320000 - 1704103200000 : Int) : ℚ) = 120000 := by norm_num
        rw [h120, abs_of_nonneg (by norm_num)]
        norm_num)).2.1

/-- The grace test, restated over integer milliseconds. -/
theorem withinGrace_iff (p : Int) (c : PRCommit) :
    withinGrace p c = true ↔ |c.author_date - p| ≤ 300000 ∨ c.author_date ≤ p := by
  simp only [withinGrace, Bool.or_eq_true, decide_eq_true_eq]
  have h60 : (0 : ℚ) < 1000 * 60 := by norm_num
  constructor
  · rintro (h | h)
    · rw [div_le_iff₀ h60] at h
      refine Or.inl ?_
      have : ((|c.author_date - p| : Int) : ℚ) ≤ 300000 := by
        rw [Int.cast_abs]
        calc |((c.author_date - p : Int) : ℚ)| ≤ 5 * (1000 * 60) := h
        _ = 300000 := by norm_num
      exact_mod_cast this
    · exact Or.inr h
  · rintro (h | h)
    · refine Or.inl ?_
      rw [div_le_iff₀ h60]
      have : ((|c.author_date - p| : Int) : ℚ) ≤ 300000 := by exact_mod_cast h
      rw [Int.cast_abs] at this
      calc |((c.author_date - p : Int) : ℚ)| ≤ 300000 := this
      _ = 5 * (1000 * 60) := by norm_num
    · exact Or.inr h

/-- The significance test, restated over integer milliseconds. -/
theorem isSignificant_iff (p : Int) (c : PRCommit) :
    isSignificant p c = true ↔ 300000 < c.author_date - p := by
  simp only [isSignificant, decide_eq_true_eq]
  have h60 : (0 : ℚ) < 1000 * 60 := by norm_num
  rw [lt_div_iff₀ h60]
  constructor
  · intro h
    have : (300000 : ℚ) < ((c.author_date - p : Int) : ℚ) := by
      calc (300000 : ℚ) = 5 * (1000 * 60) := by norm_num
      _ < _ := h
    exact_mod_cast this
  · intro h
    have h2 : (300000 : ℚ) < ((c.author_date - p : Int) : ℚ) := by exact_mod_cast h
    calc (5 : ℚ) * (1000 * 60) = 300000 := by norm_num
    _ < _ := h2

/-- A commit that fails the grace test is a significant commit: its signed
time difference exceeds five minutes. -/
theorem isSignificant_of_not_withinGrace (p : Int) (c : PRCommit)
    (h : ¬ withinGrace p c = true) : isSignificant p c = true := by
  rw [withinGrace_iff, not_or] at h
  rw [isSignificant_iff]
  obtain ⟨h1, h2⟩ := h
  rw [not_le] at h1 h2
  rw [abs_of_nonneg (by omega)] at h1
  exact h1

/-- C5: in the PR Maturity general case (at least two commits, at least one
outside the grace window), when the baseline-to-last-commit diff collaborator
returns `null`, the result is exactly the null-valued error result and never a
numeric ratio. -/
theorem diff_failure_null_result (opts : DevExOptions) (pr : PRDetails)
    (c0 c1 : PRCommit) (crest : List PRCommit) (prFiles : Option (List PRFile))
    (cmp : String → String → Option CommitDiff)
    (hout : ∃ c ∈ c0 :: c1 :: crest, ¬ withinGrace pr.created_at c = true)
    (hcmp : ∀ b l, cmp b l = none) :
    calculatePRMaturity opts (some pr) (some (c0 :: c1 :: crest)) prFiles cmp
      = errResult "Could not compare commits for maturity analysis" := by
  obtain ⟨cx, hcx, hcxg⟩ := hout
  have hlen : ((c0 :: c1 :: crest).filter (withinGrace pr.created_at)).length
      ≠ (c0 :: c1 :: crest).length := by
    intro he
    exact hcxg (List.filter_length_eq_length.mp he cx hcx)
  have hmem : cx ∈ (c0 :: c1 :: crest).filter (isSignificant pr.created_at) :=
    List.mem_filter.mpr ⟨hcx, isSignificant_of_not_withinGrace _ _ hcxg⟩
  simp only [calculatePRMaturity]
  rw [if_neg (by simp), if_neg hlen]
  rcases hfs : (c0 :: c1 :: crest).filter (isSignificant pr.created_at) with _ | ⟨s0, stail⟩
  · rw [hfs] at hmem
    cases hmem
  · simp only [hfs, hcmp]

/-- Witness for `diff_failure_null_result`: two commits, the second ten minutes
after PR creation, with a diff collaborator that always fails. -/
theorem diff_failure_null_result_witness :
    calculatePRMaturity defaultDevExOptions (some ⟨0⟩)
        (some [⟨"c1", 0⟩, ⟨"c2", 600000⟩]) (some []) (fun _ _ => none)
      = errResult "Could not compare commits for maturity analysis" :=
  diff_failure_null_result defaultDevExOptions ⟨0⟩ ⟨"c1", 0⟩ ⟨"c2", 600000⟩ []
    (some []) (fun _ _ => none)
    ⟨⟨"c2", 600000⟩, by simp, by rw [withinGrace_iff]; decide⟩
    (fun _ _ => rfl)

/-- C1 (amended): for every maturity result that carries a detail record (any
non-error branch, in particular the general case), `stable_changes` equals
`max 0 (total_changes - changes_after_publication)`, is never negative, and the
sum invariant `stable_changes + changes_after_publication == total_changes`
holds whenever `changes_after_publication ≤ total_changes`. -/
theorem stable_changes_invariant (opts : DevExOptions) (prDetails : Option PRDetails)
    (prCommits : Option (List PRCommit)) (prFiles : Option (List PRFile))
    (cmp : String → String → Option CommitDiff) :
    ∀ d, (calculatePRMaturity opts prDetails prCommits prFiles cmp).details = .ok d →
      d.stable_changes = max 0 ((d.total_changes : Int) - (d.changes_after_publication : Int)) ∧
      0 ≤ d.stable_changes ∧
      ((d.changes_after_publication : Int) ≤ (d.total_changes : Int) →
        d.stable_changes + (d.changes_after_publication : Int) = (d.total_changes : Int)) := by
  intro d hd
  rcases prDetails with _ | pr
  · exact absurd hd (by simp [calculatePRMaturity, errResult])
  rcases prCommits with _ | cs
  · exact absurd hd (by simp [calculatePRMaturity, errResult])
  rcases cs with _ | ⟨c0, crest⟩
  · exact absurd hd (by simp [calculatePRMaturity, errResult])
  simp only [calculatePRMaturity] at hd
  split at hd
  · obtain rfl : _ = d := by injection hd
    refine ⟨by simp, by simp, by intro h; simp⟩
  · split at hd
    · obtain rfl : _ = d := by injection hd
      refine ⟨by simp, by simp, by intro h; simp⟩
    · split at hd
      · obtain rfl : _ = d := by injection hd
        refine ⟨by simp, by simp, by intro h; simp⟩
      · split at hd
        · exact absurd hd (by simp [errResult])
        · obtain rfl : _ = d := by injection hd
          refine ⟨rfl, le_max_left 0 _, ?_⟩
          intro h
          simp only at h ⊢
          omega

/-- Witness for `stable_changes_invariant` at a concrete single-commit PR. -/
theorem stable_changes_invariant_witness :
    ∃ d, (calculatePRMaturity defaultDevExOptions (some ⟨0⟩) (some [⟨"c1", 0⟩])
        (some [⟨"f.js", 7, 3, "modified"⟩]) (fun _ _ => none)).details = .ok d ∧
      (d.stable_changes = max 0 ((d.total_changes : Int) - (d.changes_after_publication : Int)) ∧
       0 ≤ d.stable_changes ∧
       ((d.changes_after_publication : Int) ≤ (d.total_changes : Int) →
         d.stable_changes + (d.changes_after_publication : Int) = (d.total_changes : Int))) :=
  ⟨_, rfl, stable_changes_invariant defaultDevExOptions (some ⟨0⟩) (some [⟨"c1", 0⟩])
    (some [⟨"f.js", 7, 3, "modified"⟩]) (fun _ _ => none) _ rfl⟩

/-- C1 (counterexample): a PR reaching the general-case branch (two commits,
the second ten minutes after creation, diff succeeding) whose unfiltered
baseline-to-last diff (20 lines) exceeds the filtered total (10 lines):
`stable_changes` clamps to 0 and `stable_changes + changes_after_publication`
is 20, not `total_changes = 10`. -/
theorem stable_sum_counterexample :
    ∃ d, (calculatePRMaturity defaultDevExOptions (some ⟨0⟩)
        (some [⟨"c1", 0⟩, ⟨"c2", 600000⟩])
        (some [⟨"a.txt", 5, 5, "modified"⟩])
        (fun _ _ => some ⟨some [⟨20, 0⟩]⟩)).details = .ok d ∧
      d.reason = "Calculated based on meaningful commits after publication" ∧
      d.total_changes = 10 ∧
      d.changes_after_publication = 20 ∧
      d.stable_changes = 0 ∧
      d.stable_changes + (d.changes_after_publication : Int) ≠ (d.total_changes : Int) := by
  have hg1 : withinGrace 0 ⟨"c1", 0⟩ = true := by rw [withinGrace_iff]; decide
  have hg2 : withinGrace 0 ⟨"c2", 600000⟩ = false := by
    rw [Bool.eq_false_iff, Ne, withinGrace_iff]
    decide
  have hs1 : isSignificant 0 ⟨"c1", 0⟩ = false := by
    rw [Bool.eq_false_iff, Ne, isSignificant_iff]
    decide
  have hs2 : isSignificant 0 ⟨"c2", 600000⟩ = true := by rw [isSignificant_iff]; decide
  simp only [calculatePRMaturity]
  rw [if_neg (by simp)]
  simp only [List.filter_cons, List.filter_nil, hg1, hg2, hs1, hs2, if_true, if_false]
  norm_num [List.getLast, List.findIdx, List.findIdx.go, List.getD, calculateSizeDetails,
    filterFiles, calculateDiffSize, defaultDevExOptions]

/-- C4: the general-case scenario — PR created 2024-01-01T10:00:00Z, commits at
09:58, 10:02 and 10:15, filtered total diff 115 lines, baseline-to-last diff 20
lines — yields `stable_changes = 95` and `maturity_percentage = 83`
(`round (95 / 115 * 100) = round 82.6… = 83`). -/
theorem general_case_scenario :
    ∃ d, (calculatePRMaturity defaultDevExOptions (some ⟨1704103200000⟩)
        (some [⟨"commit1-sha", 1704103080000⟩, ⟨"commit2-sha", 1704103320000⟩,
               ⟨"commit3-sha", 1704104100000⟩])
        (some [⟨"src/file1.js", 50, 10, "modified"⟩, ⟨"src/file2.js", 30, 5, "modified"⟩,
               ⟨"test/file1.test.js", 20, 0, "modified"⟩])
        (fun _ _ => some ⟨some [⟨20, 0⟩]⟩)).details = .ok d ∧
      d.total_changes = 115 ∧
      d.changes_after_publication = 20 ∧
      d.stable_changes = 95 ∧
      (calculatePRMaturity defaultDevExOptions (some ⟨1704103200000⟩)
        (some [⟨"commit1-sha", 1704103080000⟩, ⟨"commit2-sha", 1704103320000⟩,
               ⟨"commit3-sha", 1704104100000⟩])
        (some [⟨"src/file1.js", 50, 10, "modified"⟩, ⟨"src/file2.js", 30, 5, "modified"⟩,
               ⟨"test/file1.test.js", 20, 0, "modified"⟩])
        (fun _ _ => some ⟨some [⟨20, 0⟩]⟩)).maturity_percentage = some 83 := by
  have hg1 : withinGrace 1704103200000 ⟨"commit1-sha", 1704103080000⟩ = true := by
    rw [withinGrace_iff]; decide
  have hg2 : withinGrace 1704103200000 ⟨"commit2-sha", 1704103320000⟩ = true := by
    rw [withinGrace_iff]; decide
  have hg3 : withinGrace 1704103200000 ⟨"commit3-sha", 1704104100000⟩ = false := by
    rw [Bool.eq_false_iff, Ne, withinGrace_iff]; decide
  have hs1 : isSignificant 1704103200000 ⟨"commit1-sha", 1704103080000⟩ = false := by
    rw [Bool.eq_false_iff, Ne, isSignificant_iff]; decide
  have hs2 : isSignificant 1704103200000 ⟨"commit2-sha", 1704103320000⟩ = false := by
    rw [Bool.eq_false_iff, Ne, isSignificant_iff]; decide
  have hs3 : isSignificant 1704103200000 ⟨"commit3-sha", 1704104100000⟩ = true := by
    rw [isSignificant_iff]; decide
  simp only [calculatePRMaturity]
  rw [if_neg (by simp)]
  simp only [List.filter_cons, List.filter_nil, hg1, hg2, hg3, hs1, hs2, hs3,
    if_true, if_false]
  norm_num [List.getLast, List.findIdx, List.findIdx.go, List.getD, calculateSizeDetails,
    filterFiles, calculateDiffSize, defaultDevExOptions, jsRound, round_eq]

/-! ## Cycle time calculator (MetricsCollector.calculateCycleTime, metrics-collector.js) -/

/-- `hoursBetween` from utils.js: `(later - earlier) / 36e5` (milliseconds to hours). -/
def hoursBetween (laterDate earlierDate : Int) : ℚ :=
  ((laterDate - earlierDate : Int) : ℚ) / 3600000

/-- `daysBetween` from utils.js: `(later - earlier) / 864e5` (milliseconds to days). -/
def daysBetween (laterDate earlierDate : Int) : ℚ :=
  ((laterDate - earlierDate : Int) : ℚ) / 86400000

/-- A commit object as returned by `compareCommits` / `getCommit`: `sha`,
`commit.committer.date` and `commit.author.date` (either may be absent), and
the length of `parents` (`message` is carried along in the code but never
read by the calculation). -/
structure RawCommit where
  sha : String
  committer_date : Option Int
  author_date : Option Int
  parent_count : Nat

/-- `c.commit?.committer?.date || c.commit?.author?.date`. -/
def effectiveDate (c : RawCommit) : Option Int :=
  c.committer_date.orElse fun _ => c.author_date

/-- A deployment (release or tag) with resolved sha and timestamp, as required
by `collectMetrics` before calling the calculators. -/
structure DeploymentRef where
  sha : String
  created_at : Int

/-- The per-commit record built inside `calculateCycleTime`:
`{ sha, date, age, isMerge }` (`isMerge := c.parents?.length > 1 || false`). -/
structure AgedCommit where
  sha : String
  age : ℚ
  isMerge : Bool

/-- The mapped-and-filtered commit list of `calculateCycleTime`: the `.map`
producing ages followed by `.filter((c) => c.date)`, i.e. exactly the commits
with a resolvable date. -/
def commitsWithAges (latestCreatedAt : Int) (allCommits : List RawCommit) : List AgedCommit :=
  allCommits.filterMap fun c =>
    (effectiveDate c).map fun d =>
      { sha := c.sha
        age := hoursBetween latestCreatedAt d
        isMerge := decide (1 < c.parent_count) }

/-- `Math.min(...)` on a nonempty argument list given as head and tail. -/
def jsMin (a : ℚ) (rest : List ℚ) : ℚ := rest.foldl min a

/-- `Math.max(...)` on a nonempty argument list given as head and tail. -/
def jsMax (a : ℚ) (rest : List ℚ) : ℚ := rest.foldl max a

structure CycleTimeResult where
  commit_count : Nat
  avg_hours : Option ℚ
  oldest_hours : Option ℚ
  newest_hours : Option ℚ
  oldest_commit_sha : Option String
  newest_commit_sha : Option String
  newest_excludes_merges : Bool

/-- `MetricsCollector.calculateCycleTime` on the already-fetched commit range
(`comparison.commits` when a previous deployment exists, else the single
`getCommit` result). The two JS guards `commitDates.length > 0` and
`commitsWithAges.length > 0` coincide — both lists keep exactly the commits
with a resolvable date — so they are modelled as the single match below. -/
def calculateCycleTime (includeMergeCommits : Bool) (latest : DeploymentRef)
    (allCommits : List RawCommit) : CycleTimeResult :=
  let commitDates := allCommits.filterMap effectiveDate
  match commitsWithAges latest.created_at allCommits with
  | [] =>
    { commit_count := commitDates.length
      avg_hours := none
      oldest_hours := none
      newest_hours := none
      oldest_commit_sha := none
      newest_commit_sha := none
      newest_excludes_merges := !includeMergeCommits }
  | a :: as =>
    let ages := a.age :: as.map AgedCommit.age
    let sum := ages.foldl (· + ·) 0
    let ltcAvgHours := round2 (sum / (ages.length : ℚ))
    let maxAge := jsMax a.age (as.map AgedCommit.age)
    let oldestCommit := (a :: as).find? fun c => c.age == maxAge
    let candidateCommits :=
      if includeMergeCommits then a :: as
      else (a :: as).filter fun c => !c.isMerge
    match candidateCommits with
    | [] =>
      -- Fallback: all commits are merges and merges are excluded
      let minAge := jsMin a.age (as.map AgedCommit.age)
      { commit_count := commitDates.length
        avg_hours := some ltcAvgHours
        oldest_hours := some (round2 maxAge)
        newest_hours := some (round2 minAge)
        oldest_commit_sha := oldestCommit.map AgedCommit.sha
        newest_commit_sha := ((a :: as).find? fun c => c.age == minAge).map AgedCommit.sha
        newest_excludes_merges := !includeMergeCommits }
    | b :: bs =>
      let minCand := jsMin b.age (bs.map AgedCommit.age)
      { commit_count := commitDates.length
        avg_hours := some ltcAvgHours
        oldest_hours := some (round2 maxAge)
        newest_hours := some (round2 minCand)
        oldest_commit_sha := oldestCommit.map AgedCommit.sha
        newest_commit_sha := ((b :: bs).find? fun c => c.age == minCand).map AgedCommit.sha
        newest_excludes_merges := !includeMergeCommits }

/-- `Math.min` over a nonempty list returns one of its arguments. -/
theorem jsMin_mem_cons (a : ℚ) (l : List ℚ) : jsMin a l ∈ a :: l := by
  induction l generalizing a with
  | nil => simp [jsMin]
  | cons b bs ih =>
    have h := ih (min a b)
    simp only [jsMin, List.foldl_cons] at h ⊢
    rcases List.mem_cons.mp h with h2 | h2
    · rcases min_choice a b with h3 | h3
      · exact List.mem_cons.mpr (Or.inl (h2.trans h3))
      · exact List.mem_cons.mpr (Or.inr (List.mem_cons.mpr (Or.inl (h2.trans h3))))
    · exact List.mem_cons.mpr (Or.inr (List.mem_cons.mpr (Or.inr h2)))

/-- A nonempty list of `AgedCommit`s has a member whose age is the `Math.min`
of all ages. -/
theorem exists_age_eq_jsMin (a : AgedCommit) (as : List AgedCommit) :
    ∃ c ∈ a :: as, c.age = jsMin a.age (as.map AgedCommit.age) := by
  have h := jsMin_mem_cons a.age (as.map AgedCommit.age)
  rcases List.mem_cons.mp h with h2 | h2
  · exact ⟨a, List.mem_cons_self a as, h2.symm⟩
  · obtain ⟨c, hc, hceq⟩ := List.mem_map.mp h2
    exact ⟨c, List.mem_cons_of_mem a hc, hceq⟩

/-- C6: with the default merge-exclusion policy (`includeMergeCommits = false`,
reported as `newest_excludes_merges = true`): whenever the dated commit set
contains a non-merge commit, the selected newest commit is one of the
non-merge commits (never a commit with more than one parent); and when every
dated commit is a merge, the minimum age over all commits is used as the
fallback for `newest_hours`, with the sha drawn from the full commit set. -/
theorem cycleTime_merge_exclusion (latest : DeploymentRef) (allCommits : List RawCommit) :
    ((∃ c ∈ commitsWithAges latest.created_at allCommits, c.isMerge = false) →
      ∃ c ∈ commitsWithAges latest.created_at allCommits, c.isMerge = false ∧
        (calculateCycleTime false latest allCommits).newest_commit_sha = some c.sha) ∧
    (∀ a as, commitsWithAges latest.created_at allCommits = a :: as →
      (∀ c ∈ commitsWithAges latest.created_at allCommits, c.isMerge = true) →
      (calculateCycleTime false latest allCommits).newest_hours
          = some (round2 (jsMin a.age (as.map AgedCommit.age))) ∧
      ∃ c ∈ commitsWithAges latest.created_at allCommits,
        (calculateCycleTime false latest allCommits).newest_commit_sha = some c.sha) := by
  constructor
  · rintro ⟨cnm, hmem, hnm⟩
    rcases hcwa : commitsWithAges latest.created_at allCommits with _ | ⟨a, as⟩
    · rw [hcwa] at hmem
      cases hmem
    · rw [hcwa] at hmem
      have hcand : cnm ∈ (a :: as).filter (fun c => !c.isMerge) :=
        List.mem_filter.mpr ⟨hmem, by simp [hnm]⟩
      rcases hcf : (a :: as).filter (fun c => !c.isMerge) with _ | ⟨b, bs⟩
      · rw [hcf] at hcand
        cases hcand
      · obtain ⟨x, hx, hxage⟩ := exists_age_eq_jsMin b bs
        have hfind :
            ((b :: bs).find? fun c => c.age == jsMin b.age (bs.map AgedCommit.age)).isSome := by
          rw [List.find?_isSome]
          exact ⟨x, hx, by rw [beq_iff_eq]; exact hxage⟩
        rcases hfound :
            (b :: bs).find? (fun c => c.age == jsMin b.age (bs.map AgedCommit.age)) with _ | y
        · rw [hfound] at hfind
          simp at hfind
        · have hyfil : y ∈ (a :: as).filter (fun c => !c.isMerge) := by
            rw [hcf]
            exact List.mem_of_find?_eq_some hfound
          have hynm : y.isMerge = false := by
            simpa using (List.mem_filter.mp hyfil).2
          refine ⟨y, (List.mem_filter.mp hyfil).1, hynm, ?_⟩
          simp only [calculateCycleTime, hcwa, Bool.false_eq_true, if_false, hcf, hfound]
          rfl
  · intro a as hcwa hall
    have hcf : (a :: as).filter (fun c => !c.isMerge) = [] := by
      rw [List.filter_eq_nil_iff]
      intro c hc
      simp [hall c (by rw [hcwa]; exact hc)]
    obtain ⟨x, hx, hxage⟩ := exists_age_eq_jsMin a as
    have hfind :
        ((a :: as).find? fun c => c.age == jsMin a.age (as.map AgedCommit.age)).isSome := by
      rw [List.find?_isSome]
      exact ⟨x, hx, by rw [beq_iff_eq]; exact hxage⟩
    rcases hfound :
        (a :: as).find? (fun c => c.age == jsMin a.age (as.map AgedCommit.age)) with _ | y
    · rw [hfound] at hfind
      simp at hfind
    · constructor
      · simp only [calculateCycleTime, hcwa, Bool.false_eq_true, if_false, hcf, hfound]
      · refine ⟨y, by rw [hcwa]; exact List.mem_of_find?_eq_some hfound, ?_⟩
        simp only [calculateCycleTime, hcwa, Bool.false_eq_true, if_false, hcf, hfound]
        rfl

/-- Witness for `cycleTime_merge_exclusion`: a mixed merge/non-merge pair for
the exclusion half, and a single all-merge commit for the fallback half. -/
theorem cycleTime_merge_exclusion_witness :
    (∃ c ∈ commitsWithAges 3600000
        [⟨"merge-sha", some 0, none, 2⟩, ⟨"plain-sha", some 0, none, 1⟩],
      c.isMerge = false ∧
      (calculateCycleTime false ⟨"dep", 3600000⟩
          [⟨"merge-sha", some 0, none, 2⟩, ⟨"plain-sha", some 0, none, 1⟩]).newest_commit_sha
        = some c.sha) ∧
    ((calculateCycleTime false ⟨"dep", 3600000⟩ [⟨"m1", some 0, none, 2⟩]).newest_hours
        = some (round2 (jsMin (hoursBetween 3600000 0) [])) ∧
      ∃ c ∈ commitsWithAges 3600000 [⟨"m1", some 0, none, 2⟩],
        (calculateCycleTime false ⟨"dep", 3600000⟩ [⟨"m1", some 0, none, 2⟩]).newest_commit_sha
          = some c.sha) := by
  constructor
  · exact (cycleTime_merge_exclusion ⟨"dep", 3600000⟩
      [⟨"merge-sha", some 0, none, 2⟩, ⟨"plain-sha", some 0, none, 1⟩]).1
      ⟨⟨"plain-sha", hoursBetween 3600000 0, false⟩,
        List.Mem.tail _ (List.Mem.head _), rfl⟩
  · exact (cycleTime_merge_exclusion ⟨"dep", 3600000⟩ [⟨"m1", some 0, none, 2⟩]).2
      ⟨"m1", hoursBetween 3600000 0, true⟩ [] rfl
      (by
        intro c hc
        have hred : commitsWithAges 3600000 [⟨"m1", some 0, none, 2⟩]
            = [⟨"m1", hoursBetween 3600000 0, true⟩] := rfl
        rw [hred] at hc
        rcases hc with _ | ⟨_, h⟩
        · rfl
        · exact absurd h (List.not_mem_nil c))

/-! ## Deployment source resolver (MetricsCollector.determineDataSource) -/

/-- A release object from `listReleases` (non-draft, newest first); `name` may
be absent (the code falls back to `tag_name`). -/
structure Release where
  name : Option String
  tag_name : String
  created_at : Int

/-- A tag object from `listTags`. -/
structure TagRef where
  name : String

/-- A resolved tag from `resolveTag`: commit sha plus timestamp. -/
structure ResolvedTag where
  sha : String
  created_at : Int

/-- A deployment entry built in the release branch of `determineDataSource`:
`{ name, tag, created_at }` with `sha` attached afterwards from tag resolution
(`headResolved?.sha` — absent when resolution fails). -/
structure ReleaseDeployment where
  name : String
  tag : String
  created_at : Int
  sha : Option String

/-- Result payload of `determineDataSource`: the release branch carries the
built deployment objects; the tag branch carries raw `resolveTag` results,
which may be `null`. -/
inductive DataSource where
  | release (latest : ReleaseDeployment) (previous : Option ReleaseDeployment)
  | tag (latest : Option ResolvedTag) (previous : Option ResolvedTag)

/-- `MetricsCollector.determineDataSource` over the fetched (already capped)
release and tag lists and the `resolveTag` collaborator. The
`throw new Error('No releases or tags found')` is the `.error` case, caught by
`collectMetrics` and surfaced as an `{ error }` object. -/
def determineDataSource (releases : List Release) (tags : List TagRef)
    (resolveTag : String → Option ResolvedTag) : Except String DataSource :=
  match releases with
  | r0 :: rrest =>
    let latest : ReleaseDeployment :=
      { name := r0.name.getD r0.tag_name
        tag := r0.tag_name
        created_at := r0.created_at
        sha := (resolveTag r0.tag_name).map ResolvedTag.sha }
    let previous : Option ReleaseDeployment :=
      rrest.head?.map fun r1 =>
        { name := r1.name.getD r1.tag_name
          tag := r1.tag_name
          created_at := r1.created_at
          sha := (resolveTag r1.tag_name).map ResolvedTag.sha }
    .ok (.release latest previous)
  | [] =>
    match tags with
    | [] => .error "No releases or tags found"
    | t0 :: trest =>
      -- `tags[1] ? await resolveTag(tags[1].name) : null`
      let latestTag := resolveTag t0.name
      let prevTag := trest.head?.bind fun t1 => resolveTag t1.name
      .ok (.tag latestTag prevTag)

/-- C7: whenever the release list is non-empty, the source is `release`, the
latest deployment's timestamp comes from the first release object while its
sha comes from resolving that release's tag name, and the result does not
depend on the tag list at all (releases are preferred unconditionally,
regardless of tag recency). -/
theorem releases_preferred_unconditionally (r0 : Release) (rrest : List Release)
    (tags : List TagRef) (resolveTag : String → Option ResolvedTag) :
    ∃ latest previous,
      determineDataSource (r0 :: rrest) tags resolveTag = .ok (.release latest previous) ∧
      latest.created_at = r0.created_at ∧
      latest.tag = r0.tag_name ∧
      latest.sha = (resolveTag r0.tag_name).map ResolvedTag.sha ∧
      ∀ tags2 : List TagRef,
        determineDataSource (r0 :: rrest) tags2 resolveTag
          = determineDataSource (r0 :: rrest) tags resolveTag :=
  ⟨_, _, rfl, rfl, rfl, rfl, fun _ => rfl⟩

/-- C8: `determineDataSource` fails — with the explicit
"No releases or tags found" error, a value distinct from any `.ok` result —
exactly when both the release list and the tag list are empty. -/
theorem no_deployments_error_iff (releases : List Release) (tags : List TagRef)
    (resolveTag : String → Option ResolvedTag) :
    determineDataSource releases tags resolveTag = .error "No releases or tags found"
      ↔ releases = [] ∧ tags = [] := by
  constructor
  · intro h
    rcases releases with _ | ⟨r0, rrest⟩
    · rcases tags with _ | ⟨t0, trest⟩
      · exact ⟨rfl, rfl⟩
      · exact absurd h (by simp [determineDataSource])
    · exact absurd h (by simp [determineDataSource])
  · rintro ⟨rfl, rfl⟩
    rfl

/-- Witness for `no_deployments_error_iff` at the empty lists. -/
theorem no_deployments_error_iff_witness :
    determineDataSource [] [] (fun _ => none) = .error "No releases or tags found" :=
  (no_deployments_error_iff [] [] (fun _ => none)).mpr ⟨rfl, rfl⟩

/-! ## Deploy frequency calculator (MetricsCollector.calculateDeployFrequency) -/

/-- Result of `calculateDeployFrequency`:
`{ deployCount, deploysPerWeek | null }`. -/
structure DeployFrequencyResult where
  deployCount : Nat
  deploysPerWeek : Option ℚ

/-- `MetricsCollector.calculateDeployFrequency` over the fetched (capped)
release and tag lists and `resolveTag`. Releases carry their own timestamps;
in the tag fallback both endpoint tags must resolve (the code checks
`!oldestResolved?.created_at || !newestResolved?.created_at`), otherwise the
rate is `null`. All arithmetic is total on `ℚ`: a non-positive span yields
`null` rather than a division error or infinity. -/
def calculateDeployFrequency (releases : List Release) (tags : List TagRef)
    (resolveTag : String → Option ResolvedTag) : DeployFrequencyResult :=
  match releases with
  | [] =>
    match tags with
    | [] => { deployCount := 0, deploysPerWeek := none }
    | [_] => { deployCount := 1, deploysPerWeek := none }
    | t0 :: t1 :: trest =>
      let oldest := (t0 :: t1 :: trest).getLast (List.cons_ne_nil t0 (t1 :: trest))
      let newest := t0
      match resolveTag oldest.name, resolveTag newest.name with
      | some oldestResolved, some newestResolved =>
        let days := daysBetween newestResolved.created_at oldestResolved.created_at
        let weeks := days / 7
        let deploysPerWeek :=
          if 0 < weeks then some (round2 (((t0 :: t1 :: trest).length : ℚ) / weeks))
          else none
        { deployCount := (t0 :: t1 :: trest).length, deploysPerWeek := deploysPerWeek }
      | _, _ => { deployCount := (t0 :: t1 :: trest).length, deploysPerWeek := none }
  | [_] => { deployCount := 1, deploysPerWeek := none }
  | r0 :: r1 :: rrest =>
    let oldest := (r0 :: r1 :: rrest).getLast (List.cons_ne_nil r0 (r1 :: rrest))
    let newest := r0
    let days := daysBetween newest.created_at oldest.created_at
    let weeks := days / 7
    let deploysPerWeek :=
      if 0 < weeks then some (round2 (((r0 :: r1 :: rrest).length : ℚ) / weeks))
      else none
    { deployCount := (r0 :: r1 :: rrest).length, deploysPerWeek := deploysPerWeek }

/-- C9: `deploys_per_week` is `null` whenever fewer than two deployments were
fetched; with at least two releases (resp. two resolvable tags) it is
`deploy_count / (days / 7)` rounded to two decimals when the span is positive
and `null` when the span is non-positive — always a defined `Option ℚ`, never
`NaN`, infinity, or a division error. -/
theorem deploy_frequency_contract (releases : List Release) (tags : List TagRef)
    (resolveTag : String → Option ResolvedTag) :
    ((calculateDeployFrequency releases tags resolveTag).deployCount < 2 →
      (calculateDeployFrequency releases tags resolveTag).deploysPerWeek = none) ∧
    (∀ r0 r1 rrest, releases = r0 :: r1 :: rrest →
      (calculateDeployFrequency releases tags resolveTag).deploysPerWeek =
        (if 0 < daysBetween r0.created_at
              (((r0 :: r1 :: rrest).getLast (List.cons_ne_nil r0 (r1 :: rrest))).created_at) / 7
         then some (round2 (((r0 :: r1 :: rrest).length : ℚ) /
              (daysBetween r0.created_at
                (((r0 :: r1 :: rrest).getLast (List.cons_ne_nil r0 (r1 :: rrest))).created_at) / 7)))
         else none)) ∧
    (∀ t0 t1 trest oldestResolved newestResolved, releases = [] → tags = t0 :: t1 :: trest →
      resolveTag (((t0 :: t1 :: trest).getLast (List.cons_ne_nil t0 (t1 :: trest))).name)
          = some oldestResolved →
      resolveTag t0.name = some newestResolved →
      (calculateDeployFrequency releases tags resolveTag).deploysPerWeek =
        (if 0 < daysBetween newestResolved.created_at oldestResolved.created_at / 7
         then some (round2 (((t0 :: t1 :: trest).length : ℚ) /
              (daysBetween newestResolved.created_at oldestResolved.created_at / 7)))
         else none)) := by
  refine ⟨?_, ?_, ?_⟩
  · intro hcount
    rcases releases with _ | ⟨r0, rrest⟩
    · rcases tags with _ | ⟨t0, trest⟩
      · rfl
      · rcases trest with _ | ⟨t1, trest⟩
        · rfl
        · refine absurd hcount ?_
          simp only [calculateDeployFrequency, not_lt]
          split <;> (dsimp only; simp only [List.length_cons]; omega)
    · rcases rrest with _ | ⟨r1, rrest⟩
      · rfl
      · exact absurd hcount (by simp [calculateDeployFrequency])
  · rintro r0 r1 rrest rfl
    rfl
  · rintro t0 t1 trest oldestResolved newestResolved rfl rfl hor hnr
    simp only [calculateDeployFrequency, hor, hnr]

/-- Witness for `deploy_frequency_contract`: no deployments (null rate), two
releases seven days apart (rate 2/week), and two resolvable tags seven days
apart (rate 2/week). -/
theorem deploy_frequency_contract_witness :
    (calculateDeployFrequency ([] : List Release) [] (fun _ => none)).deploysPerWeek = none ∧
    (calculateDeployFrequency [⟨none, "v2", 604800000⟩, ⟨none, "v1", 0⟩] []
        (fun _ => none)).deploysPerWeek = some 2 ∧
    (calculateDeployFrequency [] [⟨"t2"⟩, ⟨"t1"⟩]
        (fun s => if s == "t2" then some ⟨"sha2", 604800000⟩
                  else some ⟨"sha1", 0⟩)).deploysPerWeek = some 2 := by
  refine ⟨?_, ?_, ?_⟩
  · exact (deploy_frequency_contract [] [] (fun _ => none)).1 (by decide)
  · have h := (deploy_frequency_contract [⟨none, "v2", 604800000⟩, ⟨none, "v1", 0⟩] []
      (fun _ => none)).2.1 ⟨none, "v2", 604800000⟩ ⟨none, "v1", 0⟩ [] rfl
    rw [h, if_pos (by norm_num [daysBetween])]
    show some (round2 (((2 : Nat) : ℚ) / (daysBetween 604800000 0 / 7))) = some 2
    norm_num [round2, jsRound, daysBetween, round_eq]
  · have h := (deploy_frequency_contract []
      [(⟨"t2"⟩ : TagRef), ⟨"t1"⟩]
      (fun s => if s == "t2" then some ⟨"sha2", 604800000⟩ else some ⟨"sha1", 0⟩)).2.2
      ⟨"t2"⟩ ⟨"t1"⟩ [] ⟨"sha1", 0⟩ ⟨"sha2", 604800000⟩ rfl rfl rfl rfl
    rw [h, if_pos (by norm_num [daysBetween])]
    show some (round2 (((2 : Nat) : ℚ) / (daysBetween 604800000 0 / 7))) = some 2
    norm_num [round2, jsRound, daysBetween, round_eq]

/-! ## Team aggregator (TeamMetricsCollector, team-metrics-collector.js) -/

/-- The configured reporting period (`options.timePeriod`; the JS default and
any unrecognized string both behave as `weekly`). -/
inductive TimePeriod where
  | weekly
  | fortnightly
  | monthly

/-- `TeamMetricsCollector.getDaysInPeriod`. -/
def getDaysInPeriod : TimePeriod → Nat
  | .fortnightly => 14
  | .monthly => 30
  | .weekly => 7

/-- A per-PR metrics record as produced by `calculatePRMetrics` (the fields
read by `calculateAggregateStats`). -/
structure PRMetric where
  author : String
  merged : Bool
  pickup_time_hours : Option ℚ
  approve_time_hours : Option ℚ
  merge_time_hours : Option ℚ
  pr_size : Option String

/-- JS truthiness on a nullable number (`x ? f(x) : null`): both `null` and
`0` are falsy, every other rational is truthy. -/
def truthyMap {α : Type} (o : Option ℚ) (f : ℚ → α) : Option α :=
  match o with
  | none => none
  | some x => if x = 0 then none else some (f x)

/-- `TeamMetricsCollector.ratePickupTime`. -/
def ratePickupTime (hours : ℚ) : String :=
  if hours < 2 then "Elite"
  else if hours ≤ 6 then "Good"
  else if hours ≤ 16 then "Fair"
  else "Needs Focus"

/-- `TeamMetricsCollector.rateApproveTime`. -/
def rateApproveTime (hours : ℚ) : String :=
  if hours < 17 then "Elite"
  else if hours ≤ 24 then "Good"
  else if hours ≤ 45 then "Fair"
  else "Needs Focus"

/-- `TeamMetricsCollector.rateMergeTime`. -/
def rateMergeTime (hours : ℚ) : String :=
  if hours < 2 then "Elite"
  else if hours ≤ 5 then "Good"
  else if hours ≤ 19 then "Fair"
  else "Needs Focus"

/-- `TeamMetricsCollector.rateMergeFrequency`. -/
def rateMergeFrequency (frequency : ℚ) : String :=
  if 1.6 < frequency then "Elite"
  else if 1.1 ≤ frequency then "Good"
  else if 0.6 ≤ frequency then "Fair"
  else "Needs Focus"

/-- `TeamMetricsCollector.ratePRSize` (`sizeMap[size] || 'Unknown'`). -/
def ratePRSize (size : String) : String :=
  if size == "s" then "Elite"
  else if size == "m" then "Good"
  else if size == "l" then "Fair"
  else if size == "xl" then "Needs Focus"
  else "Unknown"

/-- One aggregated review-time metric block. -/
structure MetricStat where
  average_hours : Option ℚ
  rating : Option String
  sample_size : Nat

structure MergeFrequencyStat where
  value : ℚ
  rating : String
  merged_prs : Nat
  total_prs : Nat
  unique_authors : Nat

structure SizeDistribution where
  small_percent : Int
  medium_percent : Int
  large_percent : Int
  xl_percent : Int
  unknown_percent : Int
  predominant_size : String
  predominant_rating : String
  predominant_percent : Int

structure AggregateStats where
  pickup_time : MetricStat
  approve_time : MetricStat
  merge_time : MetricStat
  merge_frequency : MergeFrequencyStat
  size_distribution : SizeDistribution

/-- `TeamMetricsCollector.calculateSizeDistribution`. The `Object.entries`
iteration for the predominant size visits `s, m, l, xl` in order (the
`unknown` entry is skipped by the guard), with strictly-greater updates. -/
def calculateSizeDistribution (prMetrics : List PRMetric) : SizeDistribution :=
  let total := prMetrics.length
  let sCount := prMetrics.countP fun pr => pr.pr_size == some "s"
  let mCount := prMetrics.countP fun pr => pr.pr_size == some "m"
  let lCount := prMetrics.countP fun pr => pr.pr_size == some "l"
  let xlCount := prMetrics.countP fun pr => pr.pr_size == some "xl"
  let unknownCount := prMetrics.countP fun pr =>
    !(pr.pr_size == some "s" || pr.pr_size == some "m" ||
      pr.pr_size == some "l" || pr.pr_size == some "xl")
  let pm1 : String × Nat := if 0 < sCount then ("s", sCount) else ("unknown", 0)
  let pm2 : String × Nat := if pm1.2 < mCount then ("m", mCount) else pm1
  let pm3 : String × Nat := if pm2.2 < lCount then ("l", lCount) else pm2
  let pm4 : String × Nat := if pm3.2 < xlCount then ("xl", xlCount) else pm3
  let pct : Nat → Int := fun c =>
    if 0 < total then jsRound ((c : ℚ) / (total : ℚ) * 100) else 0
  { small_percent := pct sCount
    medium_percent := pct mCount
    large_percent := pct lCount
    xl_percent := pct xlCount
    unknown_percent := pct unknownCount
    predominant_size := pm4.1
    predominant_rating := ratePRSize pm4.1
    predominant_percent := pct pm4.2 }

/-- `TeamMetricsCollector.calculateAggregateStats`. The `new Set(...).size`
author count is the number of distinct authors (`dedup.length`). -/
def calculateAggregateStats (timePeriod : TimePeriod) (prMetrics : List PRMetric) :
    AggregateStats :=
  let pickupTimes := (prMetrics.map PRMetric.pickup_time_hours).filterMap id
  let approveTimes := (prMetrics.map PRMetric.approve_time_hours).filterMap id
  let mergeTimes := (prMetrics.map PRMetric.merge_time_hours).filterMap id
  let avgPickupTime : Option ℚ :=
    if 0 < pickupTimes.length then
      some (pickupTimes.foldl (· + ·) 0 / (pickupTimes.length : ℚ))
    else none
  let avgApproveTime : Option ℚ :=
    if 0 < approveTimes.length then
      some (approveTimes.foldl (· + ·) 0 / (approveTimes.length : ℚ))
    else none
  let avgMergeTime : Option ℚ :=
    if 0 < mergeTimes.length then
      some (mergeTimes.foldl (· + ·) 0 / (mergeTimes.length : ℚ))
    else none
  let mergedCount := (prMetrics.filter PRMetric.merged).length
  let totalPRs := prMetrics.length
  let uniqueAuthors := (prMetrics.map PRMetric.author).dedup.length
  let daysInPeriod := getDaysInPeriod timePeriod
  let weeksInPeriod : ℚ := (daysInPeriod : ℚ) / 7
  let mergeFrequency : ℚ :=
    if 0 < uniqueAuthors ∧ 0 < weeksInPeriod then
      (mergedCount : ℚ) / ((uniqueAuthors : ℚ) * weeksInPeriod)
    else 0
  { pickup_time :=
      { average_hours := truthyMap avgPickupTime round2
        rating := truthyMap avgPickupTime ratePickupTime
        sample_size := pickupTimes.length }
    approve_time :=
      { average_hours := truthyMap avgApproveTime round2
        rating := truthyMap avgApproveTime rateApproveTime
        sample_size := approveTimes.length }
    merge_time :=
      { average_hours := truthyMap avgMergeTime round2
        rating := truthyMap avgMergeTime rateMergeTime
        sample_size := mergeTimes.length }
    merge_frequency :=
      { value := round2 mergeFrequency
        rating := rateMergeFrequency mergeFrequency
        merged_prs := mergedCount
        total_prs := totalPRs
        unique_authors := uniqueAuthors }
    size_distribution := calculateSizeDistribution prMetrics }

/-- C10: for a non-empty list of per-PR metrics whose non-null pickup (resp.
approve, merge) times sum to zero — so the average is exactly 0 hours — the
aggregate reports that metric's `average_hours` and `rating` as `null` even
though `sample_size` is positive: JS truthiness makes a zero-hour average
indistinguishable from absent data. -/
theorem zero_average_reported_as_null (tp : TimePeriod) (prMetrics : List PRMetric) :
    (((prMetrics.map PRMetric.pickup_time_hours).filterMap id) ≠ [] →
      ((prMetrics.map PRMetric.pickup_time_hours).filterMap id).foldl (· + ·) 0 = 0 →
      (calculateAggregateStats tp prMetrics).pickup_time.average_hours = none ∧
      (calculateAggregateStats tp prMetrics).pickup_time.rating = none ∧
      0 < (calculateAggregateStats tp prMetrics).pickup_time.sample_size) ∧
    (((prMetrics.map PRMetric.approve_time_hours).filterMap id) ≠ [] →
      ((prMetrics.map PRMetric.approve_time_hours).filterMap id).foldl (· + ·) 0 = 0 →
      (calculateAggregateStats tp prMetrics).approve_time.average_hours = none ∧
      (calculateAggregateStats tp prMetrics).approve_time.rating = none ∧
      0 < (calculateAggregateStats tp prMetrics).approve_time.sample_size) ∧
    (((prMetrics.map PRMetric.merge_time_hours).filterMap id) ≠ [] →
      ((prMetrics.map PRMetric.merge_time_hours).filterMap id).foldl (· + ·) 0 = 0 →
      (calculateAggregateStats tp prMetrics).merge_time.average_hours = none ∧
      (calculateAggregateStats tp prMetrics).merge_time.rating = none ∧
      0 < (calculateAggregateStats tp prMetrics).merge_time.sample_size) := by
  refine ⟨?_, ?_, ?_⟩ <;> intro hne hsum <;>
    have hlen := List.length_pos.mpr hne <;>
    refine ⟨?_, ?_, ?_⟩
  · simp only [calculateAggregateStats]
    rw [if_pos hlen, hsum]
    simp [truthyMap]
  · simp only [calculateAggregateStats]
    rw [if_pos hlen, hsum]
    simp [truthyMap]
  · simp only [calculateAggregateStats]
    exact hlen
  · simp only [calculateAggregateStats]
    rw [if_pos hlen, hsum]
    simp [truthyMap]
  · simp only [calculateAggregateStats]
    rw [if_pos hlen, hsum]
    simp [truthyMap]
  · simp only [calculateAggregateStats]
    exact hlen
  · simp only [calculateAggregateStats]
    rw [if_pos hlen, hsum]
    simp [truthyMap]
  · simp only [calculateAggregateStats]
    rw [if_pos hlen, hsum]
    simp [truthyMap]
  · simp only [calculateAggregateStats]
    exact hlen

/-- Witness for `zero_average_reported_as_null`: one PR whose pickup, approve
and merge times are all exactly 0 hours. -/
theorem zero_average_reported_as_null_witness :
    ((calculateAggregateStats .weekly
        [⟨"alice", true, some 0, some 0, some 0, none⟩]).pickup_time.average_hours = none ∧
      (calculateAggregateStats .weekly
        [⟨"alice", true, some 0, some 0, some 0, none⟩]).pickup_time.rating = none ∧
      0 < (calculateAggregateStats .weekly
        [⟨"alice", true, some 0, some 0, some 0, none⟩]).pickup_time.sample_size) ∧
    ((calculateAggregateStats .weekly
        [⟨"alice", true, some 0, some 0, some 0, none⟩]).approve_time.average_hours = none ∧
      (calculateAggregateStats .weekly
        [⟨"alice", true, some 0, some 0, some 0, none⟩]).approve_time.rating = none ∧
      0 < (calculateAggregateStats .weekly
        [⟨"alice", true, some 0, some 0, some 0, none⟩]).approve_time.sample_size) ∧
    ((calculateAggregateStats .weekly
        [⟨"alice", true, some 0, some 0, some 0, none⟩]).merge_time.average_hours = none ∧
      (calculateAggregateStats .weekly
        [⟨"alice", true, some 0, some 0, some 0, none⟩]).merge_time.rating = none ∧
      0 < (calculateAggregateStats .weekly
        [⟨"alice", true, some 0, some 0, some 0, none⟩]).merge_time.sample_size) := by
  have h := zero_average_reported_as_null .weekly
    [⟨"alice", true, some 0, some 0, some 0, none⟩]
  exact ⟨h.1 (by simp) (by simp), h.2.1 (by simp) (by simp), h.2.2 (by simp) (by simp)⟩
